import Mathlib

/-!
Shallow embedding of the mt-toon Go package (pkg/toon): a JSON API
response envelope handler. Sources embedded here:
  response.go   (Response, ResponseError, Meta, RateLimit)
  handler.go    (NewHandler, FromHTTPResponse, accessors)
  validation.go (Handler.Validate)
  errors        (ErrCode, ValidationError)

Modelling conventions:
  Go time.Time is modelled as an integer tick count; the zero instant is
  0 and time.Time.IsZero is equality with 0.  Byte slices are lists of
  naturals.  A nil slice is distinguished from an empty one by Option.
  Go json.RawMessage holds the raw bytes of one JSON value; after
  json.Unmarshal the Data field is non-empty exactly when the data key
  was present, so it is modelled as an optional JSON value (a present
  literal null becomes the non-empty bytes of the word null in Go, hence
  it stays present here).  The standard library function json.Unmarshal
  applied to the envelope bytes is a parameter of the constructors; its
  behaviour on the envelope type itself is modelled structurally on a
  JSON syntax tree for the round-trip development.  The reader/writer
  lock guards state that is never mutated after construction, so it has
  no observable effect and is dropped.  Slice aliasing (defensive
  copies) is modelled separately with an explicit array store.
-/

namespace Toon

/-- A JSON value, the syntax tree a structurally valid byte sequence
parses to. Numbers are integers (all numeric fields of the envelope are
integers or tick counts). -/
inductive Json where
  | null : Json
  | bool (b : Bool) : Json
  | num (n : Int) : Json
  | str (s : String) : Json
  | arr (xs : List Json) : Json
  | obj (fields : List (String × Json)) : Json

/-- RateLimit from response.go: limit, remaining, reset. -/
structure RateLimit where
  limit : Int
  remaining : Int
  reset : Int
deriving DecidableEq

/-- Meta from response.go: timestamp, request_id, api_version, rate_limit. -/
structure Meta where
  timestamp : Int
  requestID : String
  apiVersion : String
  rateLimit : Option RateLimit
deriving DecidableEq

/-- ResponseError from response.go: code, message, details, field. -/
structure ResponseError where
  code : String
  message : String
  details : String
  field : String
deriving DecidableEq

/-- Response from response.go: success flag, optional raw data, optional
error detail, optional metadata. -/
structure Response where
  success : Bool
  data : Option Json
  error : Option ResponseError
  meta : Option Meta

/-- ErrCode from the error taxonomy. -/
inductive ErrCode where
  | invalidResponse
  | emptyResponse
  | jsonUnmarshal
  | nilHandler
  | nilResponse
  | emptyData
  | ioRead
  | invalidStatusCode
deriving DecidableEq

/-- ValidationError: code, message, optional wrapped cause, structured
context (string key-value pairs; Go stores arbitrary values, the claims
only touch the entries recorded as strings here). -/
structure ValidationError where
  code : ErrCode
  message : String
  err : Option String
  context : List (String × String)
deriving DecidableEq

/-- Handler from handler.go: the decoded response (nil-able pointer) and
the original body bytes (nil-able slice). The mutex is dropped: the
fields are never written after construction. -/
structure Handler where
  resp : Option Response
  body : Option (List Nat)

/-- Handler.IsSuccess: false when the response pointer is nil, else the
success flag. -/
def IsSuccess (h : Handler) : Bool :=
  match h.resp with
  | none => false
  | some r => r.success

/-- Handler.IsError: true when the response pointer is nil, else success
is false and the error pointer is non-nil. -/
def IsError (h : Handler) : Bool :=
  match h.resp with
  | none => true
  | some r => !r.success && r.error.isSome

/-- Handler.GetError: the error detail, nil when the response is nil. -/
def GetError (h : Handler) : Option ResponseError :=
  match h.resp with
  | none => none
  | some r => r.error

/-- Handler.ErrorString: code, then message, details and field when
non-empty, joined by a vertical-bar separator; empty when no error. -/
def ErrorString (h : Handler) : String :=
  match GetError h with
  | none => ""
  | some e =>
    let parts := [e.code]
      ++ (if e.message = "" then [] else [e.message])
      ++ (if e.details = "" then [] else [e.details])
      ++ (if e.field = "" then [] else ["field: " ++ e.field])
    String.intercalate " | " parts

/-- Handler.GetData: nil when the response is nil or the raw data bytes
have length zero; in the model a present data value is never the empty
byte sequence, so the length test is absence of the value. The returned
slice is a fresh copy in Go; aliasing is treated in the store model
below. -/
def GetData (h : Handler) : Option Json :=
  match h.resp with
  | none => none
  | some r => r.data

/-- Handler.GetMeta. -/
def GetMeta (h : Handler) : Option Meta :=
  match h.resp with
  | none => none
  | some r => r.meta

/-- Handler.GetRequestID: empty string when metadata is absent. -/
def GetRequestID (h : Handler) : String :=
  match GetMeta h with
  | none => ""
  | some m => m.requestID

/-- Handler.GetRateLimit: nil when metadata is absent. -/
def GetRateLimit (h : Handler) : Option RateLimit :=
  match GetMeta h with
  | none => none
  | some m => m.rateLimit

/-- Handler.IsRateLimited: false without a rate-limit block, else
remaining at most zero. -/
def IsRateLimited (h : Handler) : Bool :=
  match GetRateLimit h with
  | none => false
  | some rl => rl.remaining ≤ 0

/-- Handler.GetAPIVersion: empty string when metadata is absent. -/
def GetAPIVersion (h : Handler) : String :=
  match GetMeta h with
  | none => ""
  | some m => m.apiVersion

/-- Handler.GetTimestamp: nil when metadata is absent or the timestamp
is the zero instant. -/
def GetTimestamp (h : Handler) : Option Int :=
  match GetMeta h with
  | none => none
  | some m => if m.timestamp = 0 then none else some m.timestamp

/-- Handler.String: diagnostic summary. -/
def stringRepr (h : Handler) : String :=
  match h.resp with
  | none => "Handler(nil)"
  | some r =>
    if r.success then
      if GetRequestID h = "" then "Handler(Success)"
      else "Handler(Success, RequestID=" ++ GetRequestID h ++ ")"
    else
      if ErrorString h = "" then "Handler(Error)"
      else "Handler(Error=" ++ ErrorString h ++ ")"

/-- Handler.RawBody: nil when the stored body slice is nil, else the
bytes (a fresh copy in Go; aliasing is treated in the store model). -/
def RawBody (h : Handler) : Option (List Nat) :=
  h.body

/-- NewHandler from handler.go. The decode parameter stands for the
standard library call json.Unmarshal on the body bytes, producing a
Response or a parse failure message. A nil body and an empty body both
yield EMPTY_RESPONSE, with distinct messages; a parse failure yields
JSON_UNMARSHAL wrapping the cause, with the body size in the context. -/
def NewHandler (decode : List Nat → Except String Response)
    (body : Option (List Nat)) : Except ValidationError Handler :=
  match body with
  | none => .error ⟨.emptyResponse, "body is nil", none, []⟩
  | some bs =>
    if bs.length = 0 then
      .error ⟨.emptyResponse, "body is empty", none, []⟩
    else
      match decode bs with
      | .error e =>
        .error ⟨.jsonUnmarshal, "failed to unmarshal response body",
          some e, [("body_size", toString bs.length)]⟩
      | .ok r => .ok ⟨some r, some bs⟩

/-- The body of an http.Response as the Transport Adapter sees it: a nil
reader, a reader whose io.ReadAll fails, or the bytes read. -/
inductive BodySource where
  | nilBody : BodySource
  | readFails (cause : String) : BodySource
  | bytes (bs : List Nat) : BodySource

/-- The part of http.Response the adapter reads: status code and body. -/
structure HTTPResponse where
  statusCode : Int
  body : BodySource

/-- FromHTTPResponse from handler.go: nil response and nil body yield
INVALID_RESPONSE, a read failure yields IO_READ, then NewHandler runs on
the bytes and its failures propagate; finally a status code outside
[200, 299] together with a successful envelope yields
INVALID_STATUS_CODE. A handler is returned only on the last line. -/
def FromHTTPResponse (decode : List Nat → Except String Response)
    (httpResp : Option HTTPResponse) : Except ValidationError Handler :=
  match httpResp with
  | none => .error ⟨.invalidResponse, "http response is nil", none, []⟩
  | some resp =>
    match resp.body with
    | .nilBody =>
      .error ⟨.invalidResponse, "http response body is nil", none,
        [("status_code", toString resp.statusCode)]⟩
    | .readFails cause =>
      .error ⟨.ioRead, "failed to read response body", some cause,
        [("status_code", toString resp.statusCode)]⟩
    | .bytes bs =>
      match NewHandler decode (some bs) with
      | .error e => .error e
      | .ok handler =>
        if (resp.statusCode < 200 || 300 ≤ resp.statusCode)
            && IsSuccess handler then
          .error ⟨.invalidStatusCode,
            "http status code indicates error but response success is true",
            none,
            [("status_code", toString resp.statusCode),
             ("success", "true")]⟩
        else
          .ok handler

/-- Handler.Validate from validation.go, on a nil-able handler pointer:
NIL_HANDLER for a nil handler, NIL_RESPONSE for a nil response, then
INVALID_RESPONSE when success is false without an error object, or when
a present error object has an empty code or an empty message; nil
otherwise. Returns the first failure encountered. -/
def Validate (h : Option Handler) : Option ValidationError :=
  match h with
  | none => some ⟨.nilHandler, "handler is nil", none, []⟩
  | some hh =>
    match hh.resp with
    | none => some ⟨.nilResponse, "response is nil", none, []⟩
    | some r =>
      if !r.success && r.error.isNone then
        some ⟨.invalidResponse,
          "success is false but error object is missing", none, []⟩
      else
        match r.error with
        | none => none
        | some e =>
          if e.code = "" then
            some ⟨.invalidResponse, "error code is empty", none, []⟩
          else if e.message = "" then
            some ⟨.invalidResponse, "error message is empty", none, []⟩
          else
            none

/-- Handler.UnmarshalData from handler.go. The target interface value
is nil-able; whether it is nil is the flag targetNil, and the standard
library call json.Unmarshal of the data bytes into the target type is
the parameter dec. Go reports the byte length of the data and the
target type name in the context; neither exists at the level of the
JSON value, so the context is left empty here. On success Go populates
the target in place; here the populated value is returned. -/
def UnmarshalData (dec : Json → Except String α) (h : Handler)
    (targetNil : Bool) : Except ValidationError α :=
  if targetNil then
    .error ⟨.invalidResponse, "target interface is nil", none, []⟩
  else
    match GetData h with
    | none => .error ⟨.emptyData, "response data is empty", none, []⟩
    | some d =>
      match dec d with
      | .error e =>
        .error ⟨.jsonUnmarshal,
          "failed to unmarshal data into target type", some e, []⟩
      | .ok a => .ok a

/-! ### The envelope codec

json.Marshal and json.Unmarshal specialised to the Response struct and
its json tags, on the JSON syntax tree. Marshal writes the fields in
struct order and honours omitempty (a string is empty when it has no
characters, a pointer when it is nil; a time.Time struct is never
omitted by omitempty, so the timestamp is always written). Unmarshal
looks each tagged key up in the object, leaves the zero value for a
missing key or a literal null, sets a pointer field to nil on null, and
rejects a value of the wrong shape; a RawMessage field captures the
present value verbatim. Unmarshal of the literal null into the struct
itself succeeds and leaves the zero value. -/

/-- First binding of a key in a JSON object, as Unmarshal field lookup. -/
def lookupKey : List (String × Json) → String → Option Json
  | [], _ => none
  | (k, v) :: rest, key => if k = key then some v else lookupKey rest key

/-- Unmarshal a bool struct field from its looked-up value. -/
def fieldBool : Option Json → Except String Bool
  | none => .ok false
  | some .null => .ok false
  | some (.bool b) => .ok b
  | some _ => .error "cannot unmarshal into Go value of type bool"

/-- Unmarshal a string struct field from its looked-up value. -/
def fieldString : Option Json → Except String String
  | none => .ok ""
  | some .null => .ok ""
  | some (.str s) => .ok s
  | some _ => .error "cannot unmarshal into Go value of type string"

/-- Unmarshal an int struct field from its looked-up value. -/
def fieldInt : Option Json → Except String Int
  | none => .ok 0
  | some .null => .ok 0
  | some (.num n) => .ok n
  | some _ => .error "cannot unmarshal into Go value of type int"

/-- Unmarshal a ResponseError value from a JSON object. -/
def readResponseError (j : Json) : Except String ResponseError :=
  match j with
  | .obj fs =>
    match fieldString (lookupKey fs "code"),
        fieldString (lookupKey fs "message"),
        fieldString (lookupKey fs "details"),
        fieldString (lookupKey fs "field") with
    | .ok c, .ok m, .ok d, .ok f => .ok ⟨c, m, d, f⟩
    | .error e, _, _, _ => .error e
    | _, .error e, _, _ => .error e
    | _, _, .error e, _ => .error e
    | _, _, _, .error e => .error e
  | _ => .error "cannot unmarshal into Go value of type ResponseError"

/-- Unmarshal a RateLimit value from a JSON object. -/
def readRateLimit (j : Json) : Except String RateLimit :=
  match j with
  | .obj fs =>
    match fieldInt (lookupKey fs "limit"),
        fieldInt (lookupKey fs "remaining"),
        fieldInt (lookupKey fs "reset") with
    | .ok l, .ok r, .ok t => .ok ⟨l, r, t⟩
    | .error e, _, _ => .error e
    | _, .error e, _ => .error e
    | _, _, .error e => .error e
  | _ => .error "cannot unmarshal into Go value of type RateLimit"

/-- Whether a JSON value is the literal null. -/
def isNullJson : Json → Bool
  | .null => true
  | _ => false

/-- Unmarshal an optional pointer field: missing or null is nil. -/
def fieldOpt (read : Json → Except String α) :
    Option Json → Except String (Option α)
  | none => .ok none
  | some j =>
    if isNullJson j then .ok none
    else
      match read j with
      | .ok a => .ok (some a)
      | .error e => .error e

/-- Unmarshal a Meta value from a JSON object. -/
def readMeta (j : Json) : Except String Meta :=
  match j with
  | .obj fs =>
    match fieldInt (lookupKey fs "timestamp"),
        fieldString (lookupKey fs "request_id"),
        fieldString (lookupKey fs "api_version"),
        fieldOpt readRateLimit (lookupKey fs "rate_limit") with
    | .ok t, .ok rid, .ok av, .ok rl => .ok ⟨t, rid, av, rl⟩
    | .error e, _, _, _ => .error e
    | _, .error e, _, _ => .error e
    | _, _, .error e, _ => .error e
    | _, _, _, .error e => .error e
  | _ => .error "cannot unmarshal into Go value of type Meta"

/-- json.Unmarshal into the Response struct: an object is read field by
field (the data RawMessage captures the present value verbatim), the
literal null leaves the zero value, anything else is rejected. -/
def decodeResponse (j : Json) : Except String Response :=
  match j with
  | .obj fs =>
    match fieldBool (lookupKey fs "success"),
        fieldOpt readResponseError (lookupKey fs "error"),
        fieldOpt readMeta (lookupKey fs "meta") with
    | .ok s, .ok e, .ok m => .ok ⟨s, lookupKey fs "data", e, m⟩
    | .error e, _, _ => .error e
    | _, .error e, _ => .error e
    | _, _, .error e => .error e
  | .null => .ok ⟨false, none, none, none⟩
  | _ => .error "cannot unmarshal into Go value of type Response"

/-- json.Marshal of a ResponseError: code and message always, details
and field under omitempty. -/
def encodeResponseError (e : ResponseError) : Json :=
  .obj ([("code", .str e.code), ("message", .str e.message)]
    ++ (if e.details = "" then [] else [("details", .str e.details)])
    ++ (if e.field = "" then [] else [("field", .str e.field)]))

/-- json.Marshal of a RateLimit: all three fields, no omitempty. -/
def encodeRateLimit (rl : RateLimit) : Json :=
  .obj [("limit", .num rl.limit), ("remaining", .num rl.remaining),
    ("reset", .num rl.reset)]

/-- json.Marshal of a Meta: the timestamp always (omitempty never omits
a struct-typed field such as time.Time), the strings under omitempty,
the rate-limit pointer under omitempty. -/
def encodeMeta (m : Meta) : Json :=
  .obj ([("timestamp", .num m.timestamp)]
    ++ (if m.requestID = "" then [] else [("request_id", .str m.requestID)])
    ++ (if m.apiVersion = "" then []
        else [("api_version", .str m.apiVersion)])
    ++ (match m.rateLimit with
        | none => []
        | some rl => [("rate_limit", encodeRateLimit rl)]))

/-- json.Marshal of a Response: the success flag always, then data,
error and meta under omitempty. -/
def encodeResponse (r : Response) : Json :=
  .obj ([("success", .bool r.success)]
    ++ (match r.data with | none => [] | some d => [("data", d)])
    ++ (match r.error with
        | none => []
        | some e => [("error", encodeResponseError e)])
    ++ (match r.meta with
        | none => []
        | some m => [("meta", encodeMeta m)]))

/-! ### The store model of slice aliasing

GetData and RawBody allocate a fresh byte slice, copy the handler's
bytes into it and return the copy. To state that mutating the returned
slice cannot change what a later call returns, slices are references
into an explicit store of byte arrays: a reference is an index, reading
yields the array, writing replaces it, and allocation appends a fresh
array at the end of the store. -/

/-- The store of allocated byte arrays. -/
structure Mem where
  arrays : List (List Nat)
deriving DecidableEq

/-- Read the array a reference designates. -/
def Mem.read (m : Mem) (r : Nat) : List Nat :=
  m.arrays.getD r []

/-- Overwrite the array a reference designates (the caller mutating the
returned slice in place). -/
def Mem.write (m : Mem) (r : Nat) (bs : List Nat) : Mem :=
  ⟨m.arrays.set r bs⟩

/-- Allocate a fresh array holding the given bytes; make plus copy. -/
def Mem.alloc (m : Mem) (bs : List Nat) : Mem × Nat :=
  (⟨m.arrays ++ [bs]⟩, m.arrays.length)

/-- The handler's slice-valued state as references into the store: the
body slice and the response data slice, each nil-able. The data
reference is nil when the response pointer is nil or the Data field is
nil. -/
structure HandlerRef where
  bodyRef : Option Nat
  dataRef : Option Nat

/-- Handler.RawBody in the store model: nil for a nil body, else a
fresh copy of the body bytes. The handler itself is returned unchanged:
the function only reads it. -/
def RawBodyM (m : Mem) (h : HandlerRef) : Mem × Option Nat :=
  match h.bodyRef with
  | none => (m, none)
  | some r =>
    let p := m.alloc (m.read r)
    (p.1, some p.2)

/-- Handler.GetData in the store model: nil for a nil data slice or one
of length zero, else a fresh copy of the data bytes. -/
def GetDataM (m : Mem) (h : HandlerRef) : Mem × Option Nat :=
  match h.dataRef with
  | none => (m, none)
  | some r =>
    if (m.read r).length = 0 then (m, none)
    else
      let p := m.alloc (m.read r)
      (p.1, some p.2)

/-- The byte value RawBody hands the caller: the contents of the copy. -/
def RawBodyVal (m : Mem) (h : HandlerRef) : Option (List Nat) :=
  match RawBodyM m h with
  | (_, none) => none
  | (m1, some c) => some (m1.read c)

/-- The byte value GetData hands the caller. -/
def GetDataVal (m : Mem) (h : HandlerRef) : Option (List Nat) :=
  match GetDataM m h with
  | (_, none) => none
  | (m1, some c) => some (m1.read c)

/-- Projection used to state the round trip: the request id the
envelope carries, empty when metadata is absent. -/
def respRequestID (r : Response) : String :=
  match r.meta with
  | none => ""
  | some m => m.requestID

/-- Projection used to state the round trip: the limit and remaining
pair of the rate-limit block, absent without one. -/
def respRateLimitPair (r : Response) : Option (Int × Int) :=
  match r.meta with
  | none => none
  | some m =>
    match m.rateLimit with
    | none => none
    | some rl => some (rl.limit, rl.remaining)

/-! ### Theorems -/

/-- C1: IsError is true exactly when the wrapped envelope has success
false and a present error detail; with no decodable envelope IsError is
true while IsSuccess is false. -/
theorem isError_characterisation (r : Response) (b : Option (List Nat)) :
    IsError ⟨some r, b⟩ = (!r.success && r.error.isSome)
      ∧ IsError ⟨none, b⟩ = true
      ∧ IsSuccess ⟨none, b⟩ = false :=
  ⟨rfl, rfl, rfl⟩

/-- C7: IsRateLimited is true iff a rate-limit block is present with
remaining at most zero; without a block (metadata absent, or metadata
present without a rate-limit block) it is false. -/
theorem isRateLimited_characterisation (h : Handler) (su : Bool)
    (d : Option Json) (e : Option ResponseError) (b : Option (List Nat)) :
    (IsRateLimited h = true
        ↔ ∃ rl, GetRateLimit h = some rl ∧ rl.remaining ≤ 0)
      ∧ IsRateLimited ⟨some ⟨su, d, e, none⟩, b⟩ = false
      ∧ (∀ ts rid av,
          IsRateLimited ⟨some ⟨su, d, e, some ⟨ts, rid, av, none⟩⟩, b⟩
            = false) := by
  refine ⟨?_, rfl, fun ts rid av => rfl⟩
  cases hrl : GetRateLimit h with
  | none => simp [IsRateLimited, hrl]
  | some rl => simp [IsRateLimited, hrl]

/-- C10: GetTimestamp is absent both when metadata is missing and when
the metadata carries the zero instant, and the two cases give the same
result; for a present metadata block the result is absent exactly when
the timestamp is the zero instant. -/
theorem getTimestamp_zero_absent (su : Bool) (d : Option Json)
    (e : Option ResponseError) (b : Option (List Nat)) (rid av : String)
    (rl : Option RateLimit) (ts : Int) :
    GetTimestamp ⟨some ⟨su, d, e, none⟩, b⟩ = none
      ∧ GetTimestamp ⟨some ⟨su, d, e, some ⟨0, rid, av, rl⟩⟩, b⟩ = none
      ∧ GetTimestamp ⟨some ⟨su, d, e, some ⟨0, rid, av, rl⟩⟩, b⟩
          = GetTimestamp ⟨some ⟨su, d, e, none⟩, b⟩
      ∧ (GetTimestamp ⟨some ⟨su, d, e, some ⟨ts, rid, av, rl⟩⟩, b⟩ = none
          ↔ ts = 0) := by
  refine ⟨rfl, by simp [GetTimestamp, GetMeta], by simp [GetTimestamp, GetMeta], ?_⟩
  simp only [GetTimestamp, GetMeta]
  split <;> simp_all

/-- C2: Validate yields INVALID_RESPONSE for success false without an
error detail, for an error detail with an empty code (reported first,
whatever the message), and for one with an empty message; it accepts
success true without an error detail, and success false with an error
detail whose code and message are non-empty. -/
theorem validate_characterisation (b : Option (List Nat)) (d : Option Json)
    (m : Option Meta) (e : ResponseError) (msg det fld : String)
    (hc : e.code ≠ "") (hm : e.message ≠ "") :
    Validate (some ⟨some ⟨false, d, none, m⟩, b⟩)
        = some ⟨.invalidResponse,
            "success is false but error object is missing", none, []⟩
      ∧ Validate (some ⟨some ⟨false, d, some ⟨"", msg, det, fld⟩, m⟩, b⟩)
        = some ⟨.invalidResponse, "error code is empty", none, []⟩
      ∧ Validate (some ⟨some ⟨false, d, some ⟨e.code, "", det, fld⟩, m⟩, b⟩)
        = some ⟨.invalidResponse, "error message is empty", none, []⟩
      ∧ Validate (some ⟨some ⟨true, d, none, m⟩, b⟩) = none
      ∧ Validate (some ⟨some ⟨false, d, some e, m⟩, b⟩) = none := by
  refine ⟨rfl, by simp [Validate], by simp [Validate, hc], rfl, ?_⟩
  simp [Validate, hc, hm]

/-- Witness for C2 at a concrete error detail. -/
theorem validate_characterisation_witness :
    Validate (some ⟨some ⟨false, none, none, none⟩, none⟩)
        = some ⟨.invalidResponse,
            "success is false but error object is missing", none, []⟩
      ∧ Validate (some ⟨some ⟨false, none,
            some ⟨"", "m", "dd", "ff"⟩, none⟩, none⟩)
        = some ⟨.invalidResponse, "error code is empty", none, []⟩
      ∧ Validate (some ⟨some ⟨false, none,
            some ⟨ResponseError.code ⟨"c", "m", "", ""⟩, "", "dd", "ff"⟩,
            none⟩, none⟩)
        = some ⟨.invalidResponse, "error message is empty", none, []⟩
      ∧ Validate (some ⟨some ⟨true, none, none, none⟩, none⟩) = none
      ∧ Validate (some ⟨some ⟨false, none, some ⟨"c", "m", "", ""⟩, none⟩,
            none⟩) = none :=
  validate_characterisation none none none ⟨"c", "m", "", ""⟩ "m" "dd" "ff"
    (by decide) (by decide)

/-- C4: UnmarshalData fails with INVALID_RESPONSE for a nil target (for
every handler, so ahead of the empty-data check), with EMPTY_DATA when
no data is present, with JSON_UNMARSHAL wrapping the cause when the
decode into the target fails, and otherwise returns the decoded value
with no error. -/
theorem unmarshalData_characterisation {α : Type}
    (dec : Json → Except String α) (h0 h1 h2 h3 : Handler)
    (d2 d3 : Json) (s : String) (a : α)
    (h1n : GetData h1 = none)
    (h2s : GetData h2 = some d2) (h2e : dec d2 = .error s)
    (h3s : GetData h3 = some d3) (h3k : dec d3 = .ok a) :
    UnmarshalData dec h0 true
        = .error ⟨.invalidResponse, "target interface is nil", none, []⟩
      ∧ UnmarshalData dec h1 false
        = .error ⟨.emptyData, "response data is empty", none, []⟩
      ∧ UnmarshalData dec h2 false
        = .error ⟨.jsonUnmarshal,
            "failed to unmarshal data into target type", some s, []⟩
      ∧ UnmarshalData dec h3 false = .ok a := by
  refine ⟨rfl, ?_, ?_, ?_⟩ <;>
    simp [UnmarshalData, h1n, h2s, h2e, h3s, h3k]

/-- Witness for C4 with a concrete decoder that rejects null. -/
theorem unmarshalData_characterisation_witness :
    UnmarshalData
          (fun j => match j with
            | .null => Except.error "boom"
            | j2 => Except.ok j2)
          ⟨some ⟨true, some (.bool true), none, none⟩, none⟩ true
        = .error ⟨.invalidResponse, "target interface is nil", none, []⟩
      ∧ UnmarshalData
          (fun j => match j with
            | .null => Except.error "boom"
            | j2 => Except.ok j2)
          ⟨some ⟨true, none, none, none⟩, none⟩ false
        = .error ⟨.emptyData, "response data is empty", none, []⟩
      ∧ UnmarshalData
          (fun j => match j with
            | .null => Except.error "boom"
            | j2 => Except.ok j2)
          ⟨some ⟨true, some .null, none, none⟩, none⟩ false
        = .error ⟨.jsonUnmarshal,
            "failed to unmarshal data into target type", some "boom", []⟩
      ∧ UnmarshalData
          (fun j => match j with
            | .null => Except.error "boom"
            | j2 => Except.ok j2)
          ⟨some ⟨true, some (.bool true), none, none⟩, none⟩ false
        = .ok (.bool true) :=
  unmarshalData_characterisation
    (fun j => match j with
      | .null => Except.error "boom"
      | j2 => Except.ok j2)
    ⟨some ⟨true, some (.bool true), none, none⟩, none⟩
    ⟨some ⟨true, none, none, none⟩, none⟩
    ⟨some ⟨true, some .null, none, none⟩, none⟩
    ⟨some ⟨true, some (.bool true), none, none⟩, none⟩
    .null (.bool true) "boom" (.bool true) rfl rfl rfl rfl rfl

/-- C3: with a body that decodes to an envelope with success true and a
status code outside [200, 299], FromHTTPResponse yields
INVALID_STATUS_CODE and no handler. -/
theorem fromHTTPResponse_statusMismatch
    (decode : List Nat → Except String Response) (bs : List Nat)
    (r : Response) (st : Int) (hne : bs ≠ [])
    (hdec : decode bs = .ok r) (hsu : r.success = true)
    (hst : st < 200 ∨ 300 ≤ st) :
    FromHTTPResponse decode (some ⟨st, .bytes bs⟩)
      = .error ⟨.invalidStatusCode,
          "http status code indicates error but response success is true",
          none,
          [("status_code", toString st), ("success", "true")]⟩ := by
  have hlen : ¬ bs.length = 0 := by
    simpa [List.length_eq_zero] using hne
  have hcond : (decide (st < 200) || decide (300 ≤ st)) = true := by
    rcases hst with hst | hst <;> simp [hst]
  simp [FromHTTPResponse, NewHandler, IsSuccess, hlen, hdec, hsu, hcond]

/-- Witness for C3 at status 500 with a success-true body. -/
theorem fromHTTPResponse_statusMismatch_witness :
    FromHTTPResponse (fun _ => .ok ⟨true, none, none, none⟩)
        (some ⟨500, .bytes [123, 125]⟩)
      = .error ⟨.invalidStatusCode,
          "http status code indicates error but response success is true",
          none,
          [("status_code", "500"), ("success", "true")]⟩ :=
  fromHTTPResponse_statusMismatch (fun _ => .ok ⟨true, none, none, none⟩)
    [123, 125] ⟨true, none, none, none⟩ 500 (by decide) rfl rfl
    (Or.inr (by decide))

/-- C9: the cross-check is one-directional: a failing status code with
an envelope whose success flag is false returns the handler without
error. -/
theorem fromHTTPResponse_failStatus_failEnvelope_ok
    (decode : List Nat → Except String Response) (bs : List Nat)
    (r : Response) (st : Int) (hne : bs ≠ [])
    (hdec : decode bs = .ok r) (hsu : r.success = false)
    (_hst : st < 200 ∨ 300 ≤ st) :
    FromHTTPResponse decode (some ⟨st, .bytes bs⟩)
      = .ok ⟨some r, some bs⟩ := by
  have hlen : ¬ bs.length = 0 := by
    simpa [List.length_eq_zero] using hne
  simp [FromHTTPResponse, NewHandler, IsSuccess, hlen, hdec, hsu]

/-- Witness for C9 at status 500 with a success-false body. -/
theorem fromHTTPResponse_failStatus_failEnvelope_ok_witness :
    FromHTTPResponse (fun _ => .ok ⟨false, none, none, none⟩)
        (some ⟨500, .bytes [123, 125]⟩)
      = .ok ⟨some ⟨false, none, none, none⟩, some [123, 125]⟩ :=
  fromHTTPResponse_failStatus_failEnvelope_ok
    (fun _ => .ok ⟨false, none, none, none⟩)
    [123, 125] ⟨false, none, none, none⟩ 500 (by decide) rfl rfl
    (Or.inr (by decide))

/-- A handler with a decoded envelope never takes the nil branch of
String: all four reachable summaries differ from the nil form. -/
theorem stringRepr_ne_nilForm (r : Response) (b : Option (List Nat)) :
    stringRepr ⟨some r, b⟩ ≠ "Handler(nil)" := by
  have hlen1 : ("Handler(Success, RequestID=" : String).length = 27 := rfl
  have hlen2 : ("Handler(Error=" : String).length = 14 := rfl
  have hlen3 : (")" : String).length = 1 := rfl
  have hlen4 : ("Handler(nil)" : String).length = 12 := rfl
  simp only [stringRepr]
  split_ifs with h1 h2 h3
  · decide
  · intro heq
    have hl := congrArg String.length heq
    simp only [String.length_append, hlen1, hlen3, hlen4] at hl
    omega
  · decide
  · intro heq
    have hl := congrArg String.length heq
    simp only [String.length_append, hlen2, hlen3, hlen4] at hl
    omega

/-- The shape of every handler NewHandler returns: the input was a
non-nil byte sequence that decoded, the envelope is the decoded value
and the body is exactly the input. -/
theorem newHandler_ok_shape (decode : List Nat → Except String Response)
    (body : Option (List Nat)) (h : Handler)
    (hnew : NewHandler decode body = .ok h) :
    ∃ bs r, body = some bs ∧ decode bs = .ok r ∧ h = ⟨some r, some bs⟩ := by
  cases body with
  | none => simp [NewHandler] at hnew
  | some bs =>
    simp only [NewHandler] at hnew
    split at hnew
    · simp at hnew
    · cases hdec : decode bs with
      | error e => rw [hdec] at hnew; simp at hnew
      | ok r =>
        rw [hdec] at hnew
        simp only [Except.ok.injEq] at hnew
        exact ⟨bs, r, rfl, hdec, hnew.symm⟩

/-- The shape of every handler FromHTTPResponse returns: the body read
produced bytes that decoded, and the handler wraps them. -/
theorem fromHTTPResponse_ok_shape
    (decode : List Nat → Except String Response) (hr : HTTPResponse)
    (h : Handler) (hfrom : FromHTTPResponse decode (some hr) = .ok h) :
    ∃ bs r, hr.body = .bytes bs ∧ decode bs = .ok r
      ∧ h = ⟨some r, some bs⟩ := by
  obtain ⟨st, bsrc⟩ := hr
  cases bsrc with
  | nilBody => simp [FromHTTPResponse] at hfrom
  | readFails cause => simp [FromHTTPResponse] at hfrom
  | bytes bs =>
    simp only [FromHTTPResponse] at hfrom
    split at hfrom
    · simp at hfrom
    · rename_i handler heq
      split at hfrom
      · simp at hfrom
      · simp only [Except.ok.injEq] at hfrom
        obtain ⟨bs2, r, hbs2, hdec, hsh⟩ :=
          newHandler_ok_shape decode (some bs) handler heq
        obtain rfl : bs = bs2 := Option.some.inj hbs2
        exact ⟨bs, r, rfl, hdec, hfrom ▸ hsh⟩

/-- C8: every handler the public constructors return without error
holds a decoded envelope and the exact input bytes as its body, so the
absent-envelope branches of IsSuccess, IsError and String cannot be
reached through them. -/
theorem constructors_establish_invariant
    (decode : List Nat → Except String Response) (body : Option (List Nat))
    (hr : HTTPResponse) (h h2 : Handler)
    (hnew : NewHandler decode body = .ok h)
    (hfrom : FromHTTPResponse decode (some hr) = .ok h2) :
    (∃ bs r, body = some bs ∧ h.resp = some r ∧ h.body = some bs
      ∧ IsSuccess h = r.success
      ∧ IsError h = (!r.success && r.error.isSome)
      ∧ stringRepr h ≠ "Handler(nil)")
    ∧ (∃ bs r, hr.body = .bytes bs ∧ h2.resp = some r ∧ h2.body = some bs
      ∧ IsSuccess h2 = r.success
      ∧ IsError h2 = (!r.success && r.error.isSome)
      ∧ stringRepr h2 ≠ "Handler(nil)") := by
  constructor
  · obtain ⟨bs, r, hb, hdec, hsh⟩ :=
      newHandler_ok_shape decode body h hnew
    subst hsh
    exact ⟨bs, r, hb, rfl, rfl, rfl, rfl, stringRepr_ne_nilForm r (some bs)⟩
  · obtain ⟨bs, r, hb, hdec, hsh⟩ :=
      fromHTTPResponse_ok_shape decode hr h2 hfrom
    subst hsh
    exact ⟨bs, r, hb, rfl, rfl, rfl, rfl, stringRepr_ne_nilForm r (some bs)⟩

/-- Witness for C8 with a concrete decoder and bodies. -/
theorem constructors_establish_invariant_witness :
    (∃ bs r, (some [123, 125] : Option (List Nat)) = some bs
      ∧ (Handler.resp ⟨some ⟨true, none, none, none⟩, some [123, 125]⟩)
          = some r
      ∧ (Handler.body ⟨some ⟨true, none, none, none⟩, some [123, 125]⟩)
          = some bs
      ∧ IsSuccess ⟨some ⟨true, none, none, none⟩, some [123, 125]⟩
          = r.success
      ∧ IsError ⟨some ⟨true, none, none, none⟩, some [123, 125]⟩
          = (!r.success && r.error.isSome)
      ∧ stringRepr ⟨some ⟨true, none, none, none⟩, some [123, 125]⟩
          ≠ "Handler(nil)")
    ∧ (∃ bs r, (HTTPResponse.body ⟨200, .bytes [123, 125]⟩) = .bytes bs
      ∧ (Handler.resp ⟨some ⟨true, none, none, none⟩, some [123, 125]⟩)
          = some r
      ∧ (Handler.body ⟨some ⟨true, none, none, none⟩, some [123, 125]⟩)
          = some bs
      ∧ IsSuccess ⟨some ⟨true, none, none, none⟩, some [123, 125]⟩
          = r.success
      ∧ IsError ⟨some ⟨true, none, none, none⟩, some [123, 125]⟩
          = (!r.success && r.error.isSome)
      ∧ stringRepr ⟨some ⟨true, none, none, none⟩, some [123, 125]⟩
          ≠ "Handler(nil)") :=
  constructors_establish_invariant
    (fun _ => .ok ⟨true, none, none, none⟩) (some [123, 125])
    ⟨200, .bytes [123, 125]⟩
    ⟨some ⟨true, none, none, none⟩, some [123, 125]⟩
    ⟨some ⟨true, none, none, none⟩, some [123, 125]⟩ rfl rfl

/-- Reading an appended store below the old length sees the old store. -/
theorem getD_append_left {α : Type} (l l2 : List α) (n : Nat) (d : α)
    (h : n < l.length) : (l ++ l2)[n]?.getD d = l[n]?.getD d := by
  simp [List.getElem?_append, h]

/-- Reading the freshly appended cell sees the fresh array. -/
theorem getD_append_self {α : Type} (l : List α) (x : α) (d : α) :
    (l ++ [x])[l.length]?.getD d = x := by
  simp [List.getElem?_append_right (Nat.le_refl _)]

/-- Writing the freshly appended cell replaces only the fresh array. -/
theorem set_append_self {α : Type} (l : List α) (x y : α) :
    (l ++ [x]).set l.length y = l ++ [y] := by
  rw [List.set_append_right _ _ (Nat.le_refl _)]
  simp

/-- C6: RawBody and GetData return defensive copies: overwriting the
returned slice leaves the handler's stored bytes unchanged, and a
subsequent call to the same operation still returns the original
value. -/
theorem rawBody_getData_defensive_copies
    (m mb md : Mem) (h : HandlerRef) (rb rd cb cd : Nat) (bs2 : List Nat)
    (hb : h.bodyRef = some rb) (hvb : rb < m.arrays.length)
    (hd : h.dataRef = some rd) (hvd : rd < m.arrays.length)
    (hmb : RawBodyM m h = (mb, some cb))
    (hmd : GetDataM m h = (md, some cd)) :
    ((Mem.write mb cb bs2).read rb = m.read rb
      ∧ RawBodyVal (Mem.write mb cb bs2) h = RawBodyVal m h)
    ∧ ((Mem.write md cd bs2).read rd = m.read rd
      ∧ GetDataVal (Mem.write md cd bs2) h = GetDataVal m h) := by
  have keyB : ∀ mm : Mem, RawBodyVal mm h = some (mm.read rb) := by
    intro mm
    simp [RawBodyVal, RawBodyM, hb, Mem.alloc, Mem.read, getD_append_self]
  have keyD : ∀ mm : Mem, (mm.read rd).length ≠ 0 →
      GetDataVal mm h = some (mm.read rd) := by
    intro mm hl
    have hl2 : ¬ mm.arrays[rd]?.getD [] = [] := by
      simpa [Mem.read, List.length_eq_zero] using hl
    simp [GetDataVal, GetDataM, hd, hl2, Mem.alloc, Mem.read,
      getD_append_self]
  simp only [RawBodyM, hb, Mem.alloc, Prod.mk.injEq, Option.some.injEq]
    at hmb
  obtain ⟨hmb1, hmb2⟩ := hmb
  simp only [GetDataM, hd] at hmd
  split at hmd
  · simp at hmd
  · rename_i hlen
    simp only [Mem.alloc, Prod.mk.injEq, Option.some.injEq] at hmd
    obtain ⟨hmd1, hmd2⟩ := hmd
    subst hmb1 hmb2 hmd1 hmd2
    have hreadB : (Mem.write ⟨m.arrays ++ [m.read rb]⟩ m.arrays.length
        bs2).read rb = m.read rb := by
      simp [Mem.write, Mem.read, set_append_self]
      exact getD_append_left m.arrays [bs2] rb [] hvb
    have hreadD : (Mem.write ⟨m.arrays ++ [m.read rd]⟩ m.arrays.length
        bs2).read rd = m.read rd := by
      simp [Mem.write, Mem.read, set_append_self]
      exact getD_append_left m.arrays [bs2] rd [] hvd
    refine ⟨⟨hreadB, ?_⟩, ⟨hreadD, ?_⟩⟩
    · rw [keyB, keyB, hreadB]
    · rw [keyD _ (by rw [hreadD]; exact hlen), keyD _ hlen, hreadD]

/-- Witness for C6 on a concrete two-array store. -/
theorem rawBody_getData_defensive_copies_witness :
    ((Mem.write ⟨[[1], [2, 3], [1]]⟩ 2 [9]).read 0 = Mem.read ⟨[[1], [2, 3]]⟩ 0
      ∧ RawBodyVal (Mem.write ⟨[[1], [2, 3], [1]]⟩ 2 [9]) ⟨some 0, some 1⟩
        = RawBodyVal ⟨[[1], [2, 3]]⟩ ⟨some 0, some 1⟩)
    ∧ ((Mem.write ⟨[[1], [2, 3], [2, 3]]⟩ 2 [9]).read 1
        = Mem.read ⟨[[1], [2, 3]]⟩ 1
      ∧ GetDataVal (Mem.write ⟨[[1], [2, 3], [2, 3]]⟩ 2 [9]) ⟨some 0, some 1⟩
        = GetDataVal ⟨[[1], [2, 3]]⟩ ⟨some 0, some 1⟩) :=
  rawBody_getData_defensive_copies ⟨[[1], [2, 3]]⟩ ⟨[[1], [2, 3], [1]]⟩
    ⟨[[1], [2, 3], [2, 3]]⟩ ⟨some 0, some 1⟩ 0 1 2 2 [9]
    rfl (by decide) rfl (by decide) rfl rfl

/-- Unmarshal recovers a marshalled error detail exactly. -/
theorem readResponseError_encode (e : ResponseError) :
    readResponseError (encodeResponseError e) = .ok e := by
  obtain ⟨c, msg, det, fld⟩ := e
  by_cases hdet : det = "" <;> by_cases hfld : fld = "" <;>
    simp [encodeResponseError, readResponseError, lookupKey, fieldString,
      hdet, hfld]

/-- Unmarshal recovers a marshalled rate-limit block exactly. -/
theorem readRateLimit_encode (rl : RateLimit) :
    readRateLimit (encodeRateLimit rl) = .ok rl := by
  obtain ⟨l, r, t⟩ := rl
  simp [encodeRateLimit, readRateLimit, lookupKey, fieldInt]

/-- The marshalled forms are never the literal null. -/
theorem isNullJson_encodeResponseError (e : ResponseError) :
    isNullJson (encodeResponseError e) = false := by
  simp [encodeResponseError, isNullJson]

/-- The marshalled rate-limit block is never the literal null. -/
theorem isNullJson_encodeRateLimit (rl : RateLimit) :
    isNullJson (encodeRateLimit rl) = false := by
  simp [encodeRateLimit, isNullJson]

/-- The marshalled metadata block is never the literal null. -/
theorem isNullJson_encodeMeta (m : Meta) :
    isNullJson (encodeMeta m) = false := by
  simp [encodeMeta, isNullJson]

/-- A missing optional field reads back as nil. -/
theorem fieldOpt_none (read : Json → Except String α) :
    fieldOpt read none = .ok none :=
  rfl

/-- A marshalled error detail read through the optional-pointer rule. -/
theorem fieldOpt_encodeResponseError (e : ResponseError) :
    fieldOpt readResponseError (some (encodeResponseError e))
      = .ok (some e) := by
  simp [fieldOpt, isNullJson_encodeResponseError, readResponseError_encode]

/-- A marshalled rate-limit block read through the optional-pointer
rule. -/
theorem fieldOpt_encodeRateLimit (rl : RateLimit) :
    fieldOpt readRateLimit (some (encodeRateLimit rl))
      = .ok (some rl) := by
  simp [fieldOpt, isNullJson_encodeRateLimit, readRateLimit_encode]

/-- Unmarshal recovers a marshalled metadata block exactly. -/
theorem readMeta_encode (m : Meta) :
    readMeta (encodeMeta m) = .ok m := by
  obtain ⟨ts, rid, av, rl⟩ := m
  by_cases hrid : rid = "" <;> by_cases hav : av = "" <;> cases rl <;>
    simp [encodeMeta, readMeta, lookupKey, fieldInt, fieldString,
      fieldOpt_none, fieldOpt_encodeRateLimit, hrid, hav]

/-- A marshalled metadata block read through the optional-pointer rule. -/
theorem fieldOpt_encodeMeta (m : Meta) :
    fieldOpt readMeta (some (encodeMeta m)) = .ok (some m) := by
  simp [fieldOpt, isNullJson_encodeMeta, readMeta_encode]

/-- Unmarshal recovers a marshalled envelope exactly: the codec round
trip is lossless on the whole model, in particular on the success flag,
the request id and the rate-limit numbers. -/
theorem decodeResponse_encodeResponse (r : Response) :
    decodeResponse (encodeResponse r) = .ok r := by
  obtain ⟨s, d, e, m⟩ := r
  cases d <;> cases e <;> cases m <;>
    simp [encodeResponse, decodeResponse, lookupKey, fieldBool,
      fieldOpt_none, fieldOpt_encodeResponseError, fieldOpt_encodeMeta]

/-- C5: any structurally valid input that decodes to an envelope can be
re-serialized, and re-decoding the serialized form yields the same
success flag, request id and rate-limit limit and remaining values. -/
theorem decode_reserialize_roundtrip (j : Json) (r : Response)
    (_hdec : decodeResponse j = .ok r) :
    ∃ r2, decodeResponse (encodeResponse r) = .ok r2
      ∧ r2.success = r.success
      ∧ respRequestID r2 = respRequestID r
      ∧ respRateLimitPair r2 = respRateLimitPair r :=
  ⟨r, decodeResponse_encodeResponse r, rfl, rfl, rfl⟩

/-- Witness for C5 on a concrete envelope with all captured fields. -/
theorem decode_reserialize_roundtrip_witness :
    ∃ r2,
      decodeResponse (encodeResponse
          ⟨true, none, none,
            some ⟨0, "req-123", "", some ⟨1000, 500, 7⟩⟩⟩) = .ok r2
      ∧ r2.success
          = Response.success
              ⟨true, none, none,
                some ⟨0, "req-123", "", some ⟨1000, 500, 7⟩⟩⟩
      ∧ respRequestID r2
          = respRequestID
              ⟨true, none, none,
                some ⟨0, "req-123", "", some ⟨1000, 500, 7⟩⟩⟩
      ∧ respRateLimitPair r2
          = respRateLimitPair
              ⟨true, none, none,
                some ⟨0, "req-123", "", some ⟨1000, 500, 7⟩⟩⟩ :=
  decode_reserialize_roundtrip
    (.obj [("success", .bool true),
      ("meta", .obj [("request_id", .str "req-123"),
        ("rate_limit", .obj [("limit", .num 1000),
          ("remaining", .num 500), ("reset", .num 7)])])])
    ⟨true, none, none, some ⟨0, "req-123", "", some ⟨1000, 500, 7⟩⟩⟩
    (by simp [decodeResponse, lookupKey, fieldBool, fieldOpt, isNullJson,
      readMeta, fieldInt, fieldString, readRateLimit])

end Toon
